import Mathlib

/-!
Verification of the DISMANTLE-AI client layer (src/app.py, src/config.py).

The development shallowly embeds the three pieces of genuine logic of the
repository and proves the frozen claims about them:

- the URL normalizer preprocess_url (src/app.py lines 31-51),
- the agent caller call_bedrock_agent (src/app.py lines 135-192): stream
  reassembly, JSON envelope extraction with Python exception semantics, and
  the failure envelope,
- the artifact history fetcher get_s3_analysis_history (src/app.py lines
  239-256) and the credential resolution idiom shared by both callers
  (src/app.py lines 139-140 and 243-244).

Remote effects are embedded as explicit outcome values: the network call
either raises (carrying the exception description) or yields data, and the
embedded function maps every outcome to the value the Python code returns.
Python strings are embedded as Lean strings or lists of characters; decoded
UTF-8 chunk payloads are embedded as strings.
-/

/-- JSON values as produced by json.loads: the embedding of the Python
object that call_bedrock_agent inspects after reassembling the stream.
Numbers are embedded as integers; no claim inspects numeric payloads.
Objects produced by json.loads have pairwise distinct keys, so the field
list is looked up first-match. -/
inductive Json where
  | null
  | bool (b : Bool)
  | num (n : Int)
  | str (s : String)
  | arr (elems : List Json)
  | obj (fields : List (String × Json))

/-- First-match field lookup in an embedded JSON object, the embedding of
Python dict access on the dicts json.loads returns. -/
def lookupKey (kvs : List (String × Json)) (k : String) : Option Json :=
  match kvs with
  | [] => none
  | (k2, v) :: rest => if k2 = k then some v else lookupKey rest k

/-- Message of the Python KeyError raised by d[k] on a dict missing k:
str(e) is the repr of the key, the key wrapped in single quotes. -/
def keyErrorMsg (k : String) : String := "\x27" ++ k ++ "\x27"

/-- Embedding of the Python expression j[k] for a string key k: succeeds on
a dict containing the key, raises KeyError on a dict missing it, and raises
TypeError on every non-dict value. The error strings model str(e) of the
exception CPython raises. -/
def pyIndex (j : Json) (k : String) : Except String Json :=
  match j with
  | .obj kvs =>
    match lookupKey kvs k with
    | some v => .ok v
    | none => .error (keyErrorMsg k)
  | .str _ => .error "string indices must be integers"
  | .arr _ => .error "list indices must be integers or slices, not str"
  | .null => .error "\x27NoneType\x27 object is not subscriptable"
  | .bool _ => .error "\x27bool\x27 object is not subscriptable"
  | .num _ => .error "\x27int\x27 object is not subscriptable"

/-- Python equality test of a list element against a string key, as the
membership test on lists uses it: only a string element equal to the key
compares equal. -/
def strElemIs (k : String) : Json → Bool
  | .str s => s = k
  | _ => false

/-- Embedding of the Python expression k in j for a string k: key
membership on dicts, substring test on strings, element membership on
lists, and TypeError on the remaining values. -/
def pyContains (k : String) (j : Json) : Except String Bool :=
  match j with
  | .obj kvs => .ok (lookupKey kvs k).isSome
  | .str s => .ok (decide (k.data <:+: s.data))
  | .arr xs => .ok (xs.any (strElemIs k))
  | .null => .error "argument of type \x27NoneType\x27 is not iterable"
  | .bool _ => .error "argument of type \x27bool\x27 is not iterable"
  | .num _ => .error "argument of type \x27int\x27 is not iterable"

/-- Embedding of the envelope extraction of src/app.py lines 167-177 on an
already parsed buffer, with the Python evaluation order: the dict check and
membership test of line 168, then the chained accesses of lines 169-172.
.ok (some body) is the return at line 173, .ok none is falling through to
the raw return at line 181, and .error e is an exception escaping to the
outer handler at line 187. -/
def envelopeStep (v : Json) : Except String (Option Json) :=
  match v with
  | .obj kvs =>
    match lookupKey kvs "response" with
    | none => .ok none
    | some resp =>
      match pyIndex resp "functionResponse" with
      | .error e => .error e
      | .ok fr =>
        match pyContains "responseBody" fr with
        | .error e => .error e
        | .ok false => .ok none
        | .ok true =>
          match pyIndex fr "responseBody" with
          | .error e => .error e
          | .ok rb =>
            match pyContains "TEXT" rb with
            | .error e => .error e
            | .ok false => .ok none
            | .ok true =>
              match pyIndex rb "TEXT" with
              | .error e => .error e
              | .ok t =>
                match pyIndex t "body" with
                | .error e => .error e
                | .ok body => .ok (some body)
  | _ => .ok none

/-- Return value of call_bedrock_agent: the embedding of the dict literal
with exactly the keys success, message and data returned on every path of
src/app.py lines 173-192. The message key holds whatever Python value the
path produced; string values are wrapped as Json.str. -/
structure AgentResponse where
  success : Bool
  message : Json
  data : Option Json

/-- One chunk of the completion stream: the dict that may carry a bytes
payload (already UTF-8 decoded in the embedding). -/
structure Chunk where
  bytes : Option String

/-- One event of the completion stream of src/app.py line 159: it may
carry a chunk. -/
structure StreamEvent where
  chunk : Option Chunk

/-- Body of the reassembly loop of src/app.py lines 159-163: append the
decoded payload to the buffer when the event carries a chunk with a bytes
field, and keep the buffer unchanged otherwise. -/
def reassembleStep (acc : String) (ev : StreamEvent) : String :=
  match ev.chunk with
  | some c =>
    match c.bytes with
    | some b => acc ++ b
    | none => acc
  | none => acc

/-- Embedding of the reassembly loop of src/app.py lines 158-163: fold
over the events in arrival order starting from the empty buffer. -/
def reassemble (events : List StreamEvent) : String :=
  events.foldl reassembleStep ""

/-- Spec-side view for claim C3: the decoded payloads of exactly those
events that carry a chunk with a bytes field, in arrival order. -/
def chunkPayloads (events : List StreamEvent) : List String :=
  events.filterMap fun ev => ev.chunk.bind fun c => c.bytes

/-- Spec-side view for claim C3: plain left-to-right concatenation of a
list of strings. -/
def concatAll (l : List String) : String :=
  match l with
  | [] => ""
  | s :: rest => s ++ concatAll rest

/-- Outcome of the remote invoke_agent call and of draining its stream,
the explicit embedding of the effects of src/app.py lines 139-163: either
some step raised (connection error, credential failure, malformed stream),
carrying the exception description str(e), or the stream was drained to a
list of events, paired with the result of json.loads on the reassembled
buffer (none embeds a JSONDecodeError). -/
inductive InvokeOutcome where
  | failure (errMsg : String)
  | completed (events : List StreamEvent) (parsed : Option Json)

/-- Embedding of src/app.py lines 165-192 applied to the reassembled
buffer: the JSONDecodeError branch falls through to the raw return, a full
envelope match returns its body, a fall-through returns the raw buffer,
and an exception during extraction reaches the outer handler. -/
def processBuffer (raw : String) (parsed : Option Json) : AgentResponse :=
  match parsed with
  | none => { success := true, message := .str raw, data := none }
  | some v =>
    match envelopeStep v with
    | .ok (some body) => { success := true, message := body, data := none }
    | .ok none => { success := true, message := .str raw, data := none }
    | .error e => { success := false, message := .str e, data := none }

/-- Embedding of call_bedrock_agent (src/app.py lines 135-192) as a
function of the prompt and of the outcome of the remote call. The function
is total: no outcome raises, every outcome is mapped to a returned record.
The prompt only feeds the remote service, so the returned value depends on
it only through the outcome. -/
def call_bedrock_agent (_prompt : String) (outcome : InvokeOutcome) : AgentResponse :=
  match outcome with
  | .failure e => { success := false, message := .str e, data := none }
  | .completed events parsed => processBuffer (reassemble events) parsed

/-- Spec-side predicate for claim C2: the buffer fully matches the
envelope shape, a nesting of objects along
response, functionResponse, responseBody, TEXT, body, returning the body
value at the bottom. -/
def fullEnvelope (v : Json) : Option Json :=
  match v with
  | .obj kvs =>
    match lookupKey kvs "response" with
    | some (.obj kvs2) =>
      match lookupKey kvs2 "functionResponse" with
      | some (.obj kvs3) =>
        match lookupKey kvs3 "responseBody" with
        | some (.obj kvs4) =>
          match lookupKey kvs4 "TEXT" with
          | some (.obj kvs5) => lookupKey kvs5 "body"
          | _ => none
        | _ => none
      | _ => none
    | _ => none
  | _ => none

/-- Spec-side predicate for claim C2: the parsed buffer is a JSON object
carrying the key response, the only family of buffers on which the
extraction of src/app.py lines 169-172 runs at all. -/
def isObjWithResponse (v : Json) : Bool :=
  match v with
  | .obj kvs => (lookupKey kvs "response").isSome
  | _ => false

/-- Spec-side predicate for claim C2, written from the amended claim: the
buffers on which the chained envelope access of src/app.py lines 169-172
raises. The access raises when the response value is not an object or is
an object lacking functionResponse; when a membership test hits a value
that is neither dict nor string nor list; when a membership test succeeds
on a string (substring) or list (element) so that the following string
index into that value raises; or when the TEXT value is not an object or
lacks the final body key. Everywhere else the chain either extracts a
body or falls through to the raw return. -/
def envelopeAccessFails (v : Json) : Bool :=
  match v with
  | .obj kvs =>
    match lookupKey kvs "response" with
    | none => false
    | some (.obj kvs2) =>
      match lookupKey kvs2 "functionResponse" with
      | none => true
      | some (.obj kvs3) =>
        match lookupKey kvs3 "responseBody" with
        | none => false
        | some (.obj kvs4) =>
          match lookupKey kvs4 "TEXT" with
          | none => false
          | some (.obj kvs5) => (lookupKey kvs5 "body").isNone
          | some _ => true
        | some (.str s) => decide ("TEXT".data <:+: s.data)
        | some (.arr xs) => xs.any (strElemIs "TEXT")
        | some _ => true
      | some (.str s) => decide ("responseBody".data <:+: s.data)
      | some (.arr xs) => xs.any (strElemIs "responseBody")
      | some _ => true
    | some _ => true
  | _ => false

/-- Characters removed by the Python str.strip() call at src/app.py
line 33: the full CPython whitespace set, code points 09-0D, 1C-1F, 20,
85, A0, 1680, 2000-200A, 2028, 2029, 202F, 205F and 3000. -/
def isPySpace (c : Char) : Bool :=
  c = ' ' || c = '\t' || c = '\n' || c = '\r' || c = '\x0b' || c = '\x0c'
    || ('\x1c' ≤ c && c ≤ '\x1f')
    || c = '\x85' || c = '\xa0' || c = '\u1680'
    || ('\u2000' ≤ c && c ≤ '\u200a')
    || c = '\u2028' || c = '\u2029' || c = '\u202f' || c = '\u205f' || c = '\u3000'

/-- Embedding of url.strip() at src/app.py line 33 on the character list
of the string: drop whitespace from the left, then from the right. -/
def pyStripList (s : List Char) : List Char :=
  ((s.dropWhile isPySpace).reverse.dropWhile isPySpace).reverse

/-- Fuel-indexed embedding of the loop at src/app.py lines 38-39, which
removes one trailing slash per iteration. Each iteration shortens the
string by one character, so length many steps always drain the loop. -/
def removeTrailingSlashesFuel : Nat → List Char → List Char
  | 0, s => s
  | n + 1, s =>
    if s.getLast? = some '/' then removeTrailingSlashesFuel n s.dropLast else s

/-- Embedding of the while loop at src/app.py lines 38-39: run the loop
body with enough fuel to reach its exit condition. -/
def removeTrailingSlashes (s : List Char) : List Char :=
  removeTrailingSlashesFuel s.length s

/-- Characters of the membership test at src/app.py line 48, the list
of slash, space, newline and tab the code calls basic URL validation. -/
def badChar (c : Char) : Bool :=
  c = '/' || c = ' ' || c = '\n' || c = '\t'

/-- Scheme test of src/app.py line 42: url.startswith with the tuple of
the two scheme prefixes. -/
def startsWithScheme (t : List Char) : Bool :=
  "http://".data.isPrefixOf t || "https://".data.isPrefixOf t

/-- Embedding of preprocess_url (src/app.py lines 31-51) on character
lists: strip, return the empty result early, drain trailing slashes, then
the three-way prefixing branch of lines 42-49. -/
def preprocessList (url0 : List Char) : List Char :=
  let s := pyStripList url0
  if s = [] then s
  else
    let t := removeTrailingSlashes s
    if startsWithScheme t then t
    else if "www.".data.isPrefixOf t then "https://".data ++ t
    else if !(t.any badChar) then "https://www.".data ++ t
    else t

/-- Embedding of preprocess_url (src/app.py lines 31-51). The Lean
function is total: the source raises no exception on any input. -/
def preprocess_url (url : String) : String :=
  String.mk (preprocessList url.data)

/-- Spec-side slash stripping for claim C4, following the words of the
claim: strip all trailing slash characters at once. -/
def dropTrailingSlashesSpec (s : List Char) : List Char :=
  (s.reverse.dropWhile (fun c => c = '/')).reverse

/-- Spec-side normalizer for claim C4, written from the words of the
claim: trim surrounding whitespace and return empty if the result is
empty; otherwise strip all trailing slashes, then return unchanged under a
scheme prefix, prefix https:// after www., prefix https://www. on a bare
hostname, and return unchanged otherwise. -/
def normalizeSpecList (url0 : List Char) : List Char :=
  let s := pyStripList url0
  if s = [] then s
  else
    let t := dropTrailingSlashesSpec s
    if startsWithScheme t then t
    else if "www.".data.isPrefixOf t then "https://".data ++ t
    else if !(t.any badChar) then "https://www.".data ++ t
    else t

/-- Spec-side normalizer for claim C4 on strings. -/
def normalizeSpec (url : String) : String :=
  String.mk (normalizeSpecList url.data)

/-- Spec-side predicate: the first character, when present, is not
whitespace. -/
def headNotSpace (s : List Char) : Bool :=
  s.head?.all fun c => !isPySpace c

/-- Spec-side predicate: the last character, when present, is not
whitespace. -/
def lastNotSpace (s : List Char) : Bool :=
  s.getLast?.all fun c => !isPySpace c

/-- Spec-side predicate: the last character, when present, is not a
slash. -/
def lastNotSlash (s : List Char) : Bool :=
  s.getLast?.all fun c => !(c = '/')

/-- Index entry of the store listing: key and last-modified stamp of one
object returned by list_objects_v2 (timestamps embedded as naturals,
ordered as the source orders datetimes). -/
structure S3Entry where
  key : String
  lastModified : Nat
deriving DecidableEq

/-- Outcome of the list_objects_v2 call of src/app.py line 251: the call
raised (store unreachable, credential failure), or it returned a response
which carries a Contents list or does not. -/
inductive S3Outcome where
  | error (errMsg : String)
  | ok (contents : Option (List S3Entry))

/-- Observable behavior of get_s3_analysis_history: the returned list and
the message passed to st.error when the fetch failed (the non-fatal report
to the caller). -/
structure HistoryResult where
  items : List S3Entry
  reported : Option String
deriving DecidableEq

/-- Python sorted with reverse=True on the LastModified key, as called at
src/app.py line 253: a stable sort placing larger stamps first. -/
def sortByLastModifiedDesc (entries : List S3Entry) : List S3Entry :=
  entries.mergeSort fun a b => b.lastModified ≤ a.lastModified

/-- Embedding of get_s3_analysis_history (src/app.py lines 239-256) as a
function of the store outcome: on an exception the handler reports through
st.error and the function returns the empty list; a response without
Contents skips the sorted return and also yields the empty list. -/
def get_s3_analysis_history (outcome : S3Outcome) : HistoryResult :=
  match outcome with
  | .error e =>
    { items := [], reported := some ("Failed to fetch analysis history: " ++ e) }
  | .ok none => { items := [], reported := none }
  | .ok (some entries) =>
    { items := sortByLastModifiedDesc entries, reported := none }

/-- Embedding of the credential fallback idiom of src/app.py lines
139-140 and 243-244: os.getenv(KEY) or st.secrets[...]. The environment
lookup yields none when the variable is unset; the Python or takes the
secret-store value whenever the environment value is absent or falsy, and
the empty string is falsy. -/
def resolveCredential (envValue : Option String) (secretValue : String) : String :=
  match envValue with
  | some v => if v = "" then secretValue else v
  | none => secretValue

/-! Helper lemmas about the agent client. -/

theorem keyErrorMsg_ne_empty (k : String) : keyErrorMsg k ≠ "" := by
  intro h
  simpa [keyErrorMsg, String.data_append] using congrArg String.data h

theorem pyIndex_error_ne_empty (j : Json) (k e : String)
    (h : pyIndex j k = .error e) : e ≠ "" := by
  unfold pyIndex at h
  split at h
  · split at h
    · exact Except.noConfusion h
    · injection h with h2
      exact h2 ▸ keyErrorMsg_ne_empty k
  all_goals (injection h with h2; exact h2 ▸ (by decide))

theorem pyContains_error_ne_empty (k : String) (j : Json) (e : String)
    (h : pyContains k j = .error e) : e ≠ "" := by
  unfold pyContains at h
  split at h
  any_goals exact Except.noConfusion h
  all_goals (injection h with h2; exact h2 ▸ (by decide))

theorem envelopeStep_error_ne_empty (v : Json) (e : String)
    (h : envelopeStep v = .error e) : e ≠ "" := by
  unfold envelopeStep at h
  split at h
  · split at h
    · exact Except.noConfusion h
    · split at h
      · injection h with h2
        exact h2 ▸ pyIndex_error_ne_empty _ _ _ (by assumption)
      · split at h
        · injection h with h2
          exact h2 ▸ pyContains_error_ne_empty _ _ _ (by assumption)
        · exact Except.noConfusion h
        · split at h
          · injection h with h2
            exact h2 ▸ pyIndex_error_ne_empty _ _ _ (by assumption)
          · split at h
            · injection h with h2
              exact h2 ▸ pyContains_error_ne_empty _ _ _ (by assumption)
            · exact Except.noConfusion h
            · split at h
              · injection h with h2
                exact h2 ▸ pyIndex_error_ne_empty _ _ _ (by assumption)
              · split at h
                · injection h with h2
                  exact h2 ▸ pyIndex_error_ne_empty _ _ _ (by assumption)
                · exact Except.noConfusion h
  · exact Except.noConfusion h

theorem envelopeStep_error_response (v : Json) (e : String)
    (h : envelopeStep v = .error e) : isObjWithResponse v = true := by
  unfold envelopeStep at h
  split at h
  · rename_i kvs
    split at h
    · exact Except.noConfusion h
    · rename_i resp hresp
      simp [isObjWithResponse, hresp]
  · exact Except.noConfusion h

theorem envelopeStep_of_not_response (v : Json)
    (h : isObjWithResponse v = false) : envelopeStep v = .ok none := by
  cases v with
  | obj kvs =>
    cases hl : lookupKey kvs "response" with
    | none => simp [envelopeStep, hl]
    | some resp => simp [isObjWithResponse, hl] at h
  | null => rfl
  | bool b => rfl
  | num n => rfl
  | str s => rfl
  | arr xs => rfl

theorem envelopeStep_fullEnvelope (v body : Json)
    (h : fullEnvelope v = some body) : envelopeStep v = .ok (some body) := by
  unfold fullEnvelope at h
  split at h
  · rename_i kvs
    split at h
    · rename_i kvs2 hresp
      split at h
      · rename_i kvs3 hfr
        split at h
        · rename_i kvs4 hrb
          split at h
          · rename_i kvs5 htext
            simp [envelopeStep, hresp, pyIndex, pyContains, hfr, hrb, htext, h]
          · exact Option.noConfusion h
        · exact Option.noConfusion h
      · exact Option.noConfusion h
    · exact Option.noConfusion h
  · exact Option.noConfusion h

theorem foldl_reassembleStep (events : List StreamEvent) :
    ∀ acc : String,
      events.foldl reassembleStep acc = acc ++ concatAll (chunkPayloads events) := by
  induction events with
  | nil => intro acc; simp [chunkPayloads, concatAll, String.append_empty]
  | cons ev rest ih =>
    intro acc
    cases hc : ev.chunk with
    | none =>
      simp [List.foldl_cons, reassembleStep, hc, chunkPayloads, List.filterMap_cons,
        ih, Option.bind]
    | some c =>
      cases hb : c.bytes with
      | none =>
        simp [List.foldl_cons, reassembleStep, hc, hb, chunkPayloads,
          List.filterMap_cons, ih, Option.bind]
      | some b =>
        simp [List.foldl_cons, reassembleStep, hc, hb, chunkPayloads,
          List.filterMap_cons, ih, Option.bind, concatAll, String.append_assoc]

theorem envelopeStep_error_iff (v : Json) :
    (∃ e, envelopeStep v = .error e) ↔ envelopeAccessFails v = true := by
  cases v with
  | null => simp [envelopeStep, envelopeAccessFails]
  | bool b => simp [envelopeStep, envelopeAccessFails]
  | num n => simp [envelopeStep, envelopeAccessFails]
  | str s => simp [envelopeStep, envelopeAccessFails]
  | arr xs => simp [envelopeStep, envelopeAccessFails]
  | obj kvs =>
    cases hresp : lookupKey kvs "response" with
    | none => simp [envelopeStep, envelopeAccessFails, hresp]
    | some resp =>
      cases resp with
      | null => simp [envelopeStep, envelopeAccessFails, hresp, pyIndex]
      | bool b => simp [envelopeStep, envelopeAccessFails, hresp, pyIndex]
      | num n => simp [envelopeStep, envelopeAccessFails, hresp, pyIndex]
      | str s => simp [envelopeStep, envelopeAccessFails, hresp, pyIndex]
      | arr xs => simp [envelopeStep, envelopeAccessFails, hresp, pyIndex]
      | obj kvs2 =>
        cases hfr : lookupKey kvs2 "functionResponse" with
        | none => simp [envelopeStep, envelopeAccessFails, hresp, hfr, pyIndex]
        | some fr =>
          cases fr with
          | null => simp [envelopeStep, envelopeAccessFails, hresp, hfr, pyIndex, pyContains]
          | bool b => simp [envelopeStep, envelopeAccessFails, hresp, hfr, pyIndex, pyContains]
          | num n => simp [envelopeStep, envelopeAccessFails, hresp, hfr, pyIndex, pyContains]
          | str s =>
            cases hsub : decide ("responseBody".data <:+: s.data) <;>
              simp [envelopeStep, envelopeAccessFails, hresp, hfr, pyIndex, pyContains, hsub]
          | arr xs =>
            cases hany : xs.any (strElemIs "responseBody") <;>
              simp [envelopeStep, envelopeAccessFails, hresp, hfr, pyIndex, pyContains, hany]
          | obj kvs3 =>
            cases hrb : lookupKey kvs3 "responseBody" with
            | none =>
              simp [envelopeStep, envelopeAccessFails, hresp, hfr, hrb, pyIndex, pyContains]
            | some rb =>
              cases rb with
              | null =>
                simp [envelopeStep, envelopeAccessFails, hresp, hfr, hrb, pyIndex, pyContains]
              | bool b =>
                simp [envelopeStep, envelopeAccessFails, hresp, hfr, hrb, pyIndex, pyContains]
              | num n =>
                simp [envelopeStep, envelopeAccessFails, hresp, hfr, hrb, pyIndex, pyContains]
              | str s =>
                cases hsub : decide ("TEXT".data <:+: s.data) <;>
                  simp [envelopeStep, envelopeAccessFails, hresp, hfr, hrb, pyIndex,
                    pyContains, hsub]
              | arr xs =>
                cases hany : xs.any (strElemIs "TEXT") <;>
                  simp [envelopeStep, envelopeAccessFails, hresp, hfr, hrb, pyIndex,
                    pyContains, hany]
              | obj kvs4 =>
                cases htext : lookupKey kvs4 "TEXT" with
                | none =>
                  simp [envelopeStep, envelopeAccessFails, hresp, hfr, hrb, htext,
                    pyIndex, pyContains]
                | some t =>
                  cases t with
                  | null =>
                    simp [envelopeStep, envelopeAccessFails, hresp, hfr, hrb, htext,
                      pyIndex, pyContains]
                  | bool b =>
                    simp [envelopeStep, envelopeAccessFails, hresp, hfr, hrb, htext,
                      pyIndex, pyContains]
                  | num n =>
                    simp [envelopeStep, envelopeAccessFails, hresp, hfr, hrb, htext,
                      pyIndex, pyContains]
                  | str s =>
                    simp [envelopeStep, envelopeAccessFails, hresp, hfr, hrb, htext,
                      pyIndex, pyContains]
                  | arr xs =>
                    simp [envelopeStep, envelopeAccessFails, hresp, hfr, hrb, htext,
                      pyIndex, pyContains]
                  | obj kvs5 =>
                    cases hbody : lookupKey kvs5 "body" with
                    | none =>
                      simp [envelopeStep, envelopeAccessFails, hresp, hfr, hrb, htext,
                        hbody, pyIndex, pyContains]
                    | some body =>
                      simp [envelopeStep, envelopeAccessFails, hresp, hfr, hrb, htext,
                        hbody, pyIndex, pyContains]

/-! Claim C1. -/

/-- C1: for every prompt, call_bedrock_agent never raises to its caller
(the embedded function is total over all outcomes); on a failing outcome
carrying a non-empty exception description it returns the record with
success false, that description as the message, and data null, and the
message is non-empty. -/
theorem C1_agent_failure_is_captured (prompt errMsg : String) (h : errMsg ≠ "") :
    call_bedrock_agent prompt (.failure errMsg) =
      { success := false, message := .str errMsg, data := none } ∧
    Json.str errMsg ≠ Json.str "" :=
  ⟨rfl, fun hc => h (Json.str.inj hc)⟩

/-- C1 witness: a simulated connection failure yields success false, the
failure description as message, and data null. -/
theorem C1_agent_failure_is_captured_witness :
    ("Could not connect to the endpoint URL" ≠ "") ∧
    (call_bedrock_agent "Analyze this website: https://www.example.com"
        (.failure "Could not connect to the endpoint URL") =
      { success := false, message := .str "Could not connect to the endpoint URL",
        data := none } ∧
    Json.str "Could not connect to the endpoint URL" ≠ Json.str "") :=
  ⟨by decide,
    C1_agent_failure_is_captured "Analyze this website: https://www.example.com"
      "Could not connect to the endpoint URL" (by decide)⟩

/-! Claim C2. -/

/-- C2 counterexample: the buffer consisting of an object whose response
field is an empty object parses as JSON and does not fully match the
envelope shape, so the claim as stated predicts success true with the raw
buffer as message; the code instead hits a KeyError on functionResponse,
which the outer handler turns into success false with the KeyError
description as message. -/
theorem C2_counterexample :
    (call_bedrock_agent "p"
        (.completed [⟨some ⟨some "\x7b\"response\": \x7b\x7d\x7d"⟩⟩]
          (some (.obj [("response", .obj [])])))).success = false ∧
    (call_bedrock_agent "p"
        (.completed [⟨some ⟨some "\x7b\"response\": \x7b\x7d\x7d"⟩⟩]
          (some (.obj [("response", .obj [])])))).message =
      .str "\x27functionResponse\x27" :=
  ⟨rfl, rfl⟩

/-- C2 amended: a buffer fully matching the envelope shape yields success
true with the nested body as message; a buffer that does not parse as
JSON, or parses to anything other than an object carrying the key
response, yields success true with the raw reassembled buffer as message,
and so does an object-with-response buffer whose functionResponse object
lacks responseBody or whose responseBody object lacks TEXT; whenever the
chained access raises (envelopeAccessFails), the call yields success
false with a non-empty error description, and success false occurs
exactly for those buffers, all of which carry the key response. -/
theorem C2_envelope_extraction_amended (prompt : String)
    (events : List StreamEvent) (v body : Json)
    (kvs kvs2 kvs3 kvs4 : List (String × Json)) :
    (fullEnvelope v = some body →
      call_bedrock_agent prompt (.completed events (some v)) =
        { success := true, message := body, data := none }) ∧
    (call_bedrock_agent prompt (.completed events none) =
      { success := true, message := .str (reassemble events), data := none }) ∧
    (isObjWithResponse v = false →
      call_bedrock_agent prompt (.completed events (some v)) =
        { success := true, message := .str (reassemble events), data := none }) ∧
    (v = .obj kvs → lookupKey kvs "response" = some (.obj kvs2) →
      lookupKey kvs2 "functionResponse" = some (.obj kvs3) →
      lookupKey kvs3 "responseBody" = none →
      call_bedrock_agent prompt (.completed events (some v)) =
        { success := true, message := .str (reassemble events), data := none }) ∧
    (v = .obj kvs → lookupKey kvs "response" = some (.obj kvs2) →
      lookupKey kvs2 "functionResponse" = some (.obj kvs3) →
      lookupKey kvs3 "responseBody" = some (.obj kvs4) →
      lookupKey kvs4 "TEXT" = none →
      call_bedrock_agent prompt (.completed events (some v)) =
        { success := true, message := .str (reassemble events), data := none }) ∧
    (envelopeAccessFails v = true →
      (call_bedrock_agent prompt (.completed events (some v))).success = false ∧
      (call_bedrock_agent prompt (.completed events (some v))).message ≠ Json.str "") ∧
    ((call_bedrock_agent prompt (.completed events (some v))).success = false →
      envelopeAccessFails v = true ∧ isObjWithResponse v = true) := by
  refine ⟨?_, rfl, ?_, ?_, ?_, ?_, ?_⟩
  · intro h
    simp [call_bedrock_agent, processBuffer, envelopeStep_fullEnvelope v body h]
  · intro h
    simp [call_bedrock_agent, processBuffer, envelopeStep_of_not_response v h]
  · intro hv hresp hfr hrb
    subst hv
    simp [call_bedrock_agent, processBuffer, envelopeStep, hresp, hfr, hrb,
      pyIndex, pyContains]
  · intro hv hresp hfr hrb htext
    subst hv
    simp [call_bedrock_agent, processBuffer, envelopeStep, hresp, hfr, hrb, htext,
      pyIndex, pyContains]
  · intro hfail
    obtain ⟨e, he⟩ := (envelopeStep_error_iff v).mpr hfail
    refine ⟨by simp [call_bedrock_agent, processBuffer, he], ?_⟩
    have hm : (call_bedrock_agent prompt (.completed events (some v))).message =
        .str e := by
      simp [call_bedrock_agent, processBuffer, he]
    rw [hm]
    intro hc
    exact envelopeStep_error_ne_empty v e he (Json.str.inj hc)
  · intro hfail
    cases he : envelopeStep v with
    | ok ov =>
      cases ov <;> simp [call_bedrock_agent, processBuffer, he] at hfail
    | error e =>
      exact ⟨(envelopeStep_error_iff v).mp ⟨e, he⟩, envelopeStep_error_response v e he⟩

/-- C2 witness: the spec example envelope extracts hello; a plain-text
buffer, and an object whose functionResponse object lacks responseBody,
fall back to the raw buffer with success true; and a failing access
yields success false. -/
theorem C2_envelope_extraction_amended_witness :
    fullEnvelope (.obj [("response", .obj [("functionResponse",
        .obj [("responseBody", .obj [("TEXT", .obj [("body", .str "hello")])])])])]) =
      some (.str "hello") ∧
    call_bedrock_agent "p"
        (.completed [⟨some ⟨some "ignored"⟩⟩]
          (some (.obj [("response", .obj [("functionResponse",
            .obj [("responseBody", .obj [("TEXT", .obj [("body", .str "hello")])])])])]))) =
      { success := true, message := .str "hello", data := none } ∧
    isObjWithResponse (.str "plain text") = false ∧
    call_bedrock_agent "p" (.completed [⟨some ⟨some "plain text"⟩⟩]
        (some (.str "plain text"))) =
      { success := true, message := .str "plain text", data := none } ∧
    lookupKey ([] : List (String × Json)) "responseBody" = none ∧
    call_bedrock_agent "p" (.completed [⟨some ⟨some "buf"⟩⟩]
        (some (.obj [("response", .obj [("functionResponse", .obj [])])]))) =
      { success := true, message := .str "buf", data := none } ∧
    envelopeAccessFails (.obj [("response", .obj [])]) = true ∧
    (call_bedrock_agent "p" (.completed [⟨some ⟨some "buf2"⟩⟩]
        (some (.obj [("response", .obj [])])))).success = false :=
  ⟨rfl,
    (C2_envelope_extraction_amended "p" [⟨some ⟨some "ignored"⟩⟩]
      (.obj [("response", .obj [("functionResponse",
        .obj [("responseBody", .obj [("TEXT", .obj [("body", .str "hello")])])])])])
      (.str "hello") [] [] [] []).1 rfl,
    rfl,
    (C2_envelope_extraction_amended "p" [⟨some ⟨some "plain text"⟩⟩]
      (.str "plain text") .null [] [] [] []).2.2.1 rfl,
    rfl,
    (C2_envelope_extraction_amended "p" [⟨some ⟨some "buf"⟩⟩]
      (.obj [("response", .obj [("functionResponse", .obj [])])]) .null
      [("response", .obj [("functionResponse", .obj [])])]
      [("functionResponse", .obj [])] [] []).2.2.2.1 rfl rfl rfl rfl,
    rfl,
    ((C2_envelope_extraction_amended "p" [⟨some ⟨some "buf2"⟩⟩]
      (.obj [("response", .obj [])]) .null [] [] [] []).2.2.2.2.2.1 rfl).1⟩

/-! Claim C3. -/

/-- C3: the reassembled buffer equals the concatenation, in arrival
order, of the decoded payloads of exactly those events carrying a chunk
with a bytes field; in particular the split chunk sequence of the spec
reassembles to the unsplit JSON text. -/
theorem C3_reassembly_is_ordered_concat (events : List StreamEvent) :
    reassemble events = concatAll (chunkPayloads events) ∧
    reassemble [⟨some ⟨some "\x7b\"a\":1"⟩⟩, ⟨some ⟨some "\x7d"⟩⟩] = "\x7b\"a\":1\x7d" := by
  refine ⟨?_, rfl⟩
  have h := foldl_reassembleStep events ""
  simpa [reassemble] using h

/-! Claim C9. -/

/-- C9: every value call_bedrock_agent returns is an AgentResponse record,
a type with exactly the fields success, message and data, and on every
path the data field is null: the opaque payload of the AgentResponse
schema is never populated. -/
theorem C9_data_never_populated (prompt : String) (outcome : InvokeOutcome) :
    (call_bedrock_agent prompt outcome).data = none := by
  cases outcome with
  | failure e => rfl
  | completed events parsed =>
    cases parsed with
    | none => rfl
    | some v =>
      cases he : envelopeStep v with
      | error e => simp [call_bedrock_agent, processBuffer, he]
      | ok ov => cases ov <;> simp [call_bedrock_agent, processBuffer, he]

/-! Helper lemmas about lists, stripping and slash draining. -/

theorem opt_head_dropWhile (p : Char → Bool) (l : List Char) :
    ((l.dropWhile p).head?.all fun c => !p c) = true := by
  induction l with
  | nil => rfl
  | cons a t ih =>
    by_cases hpa : p a = true
    · simpa [List.dropWhile_cons, hpa] using ih
    · simp at hpa
      simp [List.dropWhile_cons, hpa]

theorem dropWhile_eq_self_of_head (p : Char → Bool) (l : List Char)
    (h : (l.head?.all fun c => !p c) = true) : l.dropWhile p = l := by
  cases l with
  | nil => rfl
  | cons a t =>
    simp [Option.all_some] at h
    simp [List.dropWhile_cons, h]

theorem getLast?_of_suffix {l1 l2 : List Char} (h : l1 <:+ l2) (hne : l1 ≠ []) :
    l2.getLast? = l1.getLast? := by
  obtain ⟨u, rfl⟩ := h
  rw [List.getLast?_append]
  cases hl : l1.getLast? with
  | none => exact absurd (List.getLast?_eq_none_iff.mp hl) hne
  | some a => rfl

theorem prefix_head_eq {l1 l2 : List Char} (h : l1 <+: l2) (hne : l1 ≠ []) :
    l2.head? = l1.head? := by
  obtain ⟨r, rfl⟩ := h
  rw [List.head?_append]
  cases hl : l1.head? with
  | none => exact absurd (List.head?_eq_none_iff.mp hl) hne
  | some a => rfl

theorem removeTrailingSlashesFuel_eq (n : Nat) :
    ∀ s : List Char, s.length ≤ n →
      removeTrailingSlashesFuel n s = (s.reverse.dropWhile (fun c => c = '/')).reverse := by
  induction n with
  | zero =>
    intro s hs
    have : s = [] := List.eq_nil_of_length_eq_zero (Nat.le_zero.mp hs)
    subst this
    rfl
  | succ n ih =>
    intro s hs
    rcases List.eq_nil_or_concat s with rfl | ⟨L, b, rfl⟩
    · rfl
    · simp only [List.concat_eq_append] at *
      by_cases hb : b = '/'
      · subst hb
        rw [removeTrailingSlashesFuel]
        simp only [List.getLast?_concat, if_pos rfl, List.dropLast_concat]
        rw [ih L (by simp at hs; omega)]
        simp [List.dropWhile_cons]
      · rw [removeTrailingSlashesFuel]
        rw [List.getLast?_concat]
        rw [if_neg (by simpa using hb)]
        rw [List.reverse_append]
        simp only [List.reverse_cons, List.reverse_nil, List.nil_append,
          List.singleton_append]
        rw [List.dropWhile_cons]
        rw [if_neg (by simpa using hb)]
        simp

theorem removeTrailingSlashes_eq (s : List Char) :
    removeTrailingSlashes s = dropTrailingSlashesSpec s :=
  removeTrailingSlashesFuel_eq s.length s (Nat.le_refl _)

theorem lastNotSlash_rts (s : List Char) :
    lastNotSlash (removeTrailingSlashes s) = true := by
  rw [removeTrailingSlashes_eq]
  unfold dropTrailingSlashesSpec lastNotSlash
  rw [List.getLast?_reverse]
  exact opt_head_dropWhile _ _

theorem rts_prefix_of_self (s : List Char) : removeTrailingSlashes s <+: s := by
  rw [removeTrailingSlashes_eq]
  unfold dropTrailingSlashesSpec
  obtain ⟨u, hu⟩ := List.dropWhile_suffix (l := s.reverse) (fun c => c = '/')
  refine ⟨u.reverse, ?_⟩
  have := congrArg List.reverse hu
  simpa [List.reverse_append] using this

theorem rts_eq_self (s : List Char) (h : lastNotSlash s = true) :
    removeTrailingSlashes s = s := by
  rw [removeTrailingSlashes_eq]
  unfold dropTrailingSlashesSpec
  rw [dropWhile_eq_self_of_head _ _ (by rwa [List.head?_reverse]), List.reverse_reverse]

theorem headNotSpace_pyStripList (s : List Char) :
    headNotSpace (pyStripList s) = true := by
  unfold pyStripList headNotSpace
  rw [List.head?_reverse]
  by_cases hm : (s.dropWhile isPySpace).reverse.dropWhile isPySpace = []
  · rw [hm]; rfl
  · rw [← getLast?_of_suffix (List.dropWhile_suffix _) hm, List.getLast?_reverse]
    exact opt_head_dropWhile _ _

theorem lastNotSpace_pyStripList (s : List Char) :
    lastNotSpace (pyStripList s) = true := by
  unfold pyStripList lastNotSpace
  rw [List.getLast?_reverse]
  exact opt_head_dropWhile _ _

theorem pyStripList_eq_self (s : List Char) (h1 : headNotSpace s = true)
    (h2 : lastNotSpace s = true) : pyStripList s = s := by
  unfold pyStripList
  rw [dropWhile_eq_self_of_head _ _ h1]
  rw [dropWhile_eq_self_of_head _ _ (by rwa [List.head?_reverse]), List.reverse_reverse]

theorem isPrefixOf_append (l r : List Char) : l.isPrefixOf (l ++ r) = true :=
  List.isPrefixOf_iff_prefix.mpr (List.prefix_append l r)

theorem scheme_append_https (l : List Char) :
    startsWithScheme ("https://".data ++ l) = true := by
  unfold startsWithScheme
  rw [isPrefixOf_append]
  simp

theorem https_www_split :
    ("https://www.".data : List Char) = "https://".data ++ "www.".data := by decide

theorem scheme_append_https_www (l : List Char) :
    startsWithScheme ("https://www.".data ++ l) = true := by
  rw [https_www_split, List.append_assoc]
  exact scheme_append_https _

theorem headNotSpace_https (l : List Char) :
    headNotSpace ("https://".data ++ l) = true := rfl

theorem headNotSpace_https_www (l : List Char) :
    headNotSpace ("https://www.".data ++ l) = true := rfl

theorem lastNotSlash_append_right (u l : List Char) (h : l ≠ []) :
    lastNotSlash (u ++ l) = lastNotSlash l := by
  unfold lastNotSlash
  rw [List.getLast?_append]
  cases hl : l.getLast? with
  | none => exact absurd (List.getLast?_eq_none_iff.mp hl) h
  | some a => rfl

theorem scheme_ne_nil (t : List Char) (h : startsWithScheme t = true) : t ≠ [] := by
  intro h0
  rw [h0] at h
  exact absurd h (by decide)

theorem www_ne_nil (t : List Char) (h : "www.".data.isPrefixOf t = true) : t ≠ [] := by
  intro h0
  rw [h0] at h
  exact absurd h (by decide)

theorem prefix_headNotSpace {l1 l2 : List Char} (h : l1 <+: l2) (hne : l1 ≠ [])
    (hh : headNotSpace l2 = true) : headNotSpace l1 = true := by
  unfold headNotSpace at *
  rwa [prefix_head_eq h hne] at hh

theorem preprocessList_props (x : List Char) :
    headNotSpace (preprocessList x) = true ∧
    lastNotSlash (preprocessList x) = true ∧
    (preprocessList x = [] ∨ startsWithScheme (preprocessList x) = true ∨
      (startsWithScheme (preprocessList x) = false ∧
        "www.".data.isPrefixOf (preprocessList x) = false ∧
        (!((preprocessList x).any badChar)) = false)) := by
  by_cases hs : pyStripList x = []
  · have hy : preprocessList x = [] := by simp [preprocessList, hs]
    rw [hy]
    exact ⟨rfl, rfl, Or.inl rfl⟩
  · have hhead : headNotSpace (pyStripList x) = true := headNotSpace_pyStripList x
    have htl : lastNotSlash (removeTrailingSlashes (pyStripList x)) = true :=
      lastNotSlash_rts _
    have htp : removeTrailingSlashes (pyStripList x) <+: pyStripList x := rts_prefix_of_self _
    cases h1 : startsWithScheme (removeTrailingSlashes (pyStripList x)) with
    | true =>
      have hy : preprocessList x = removeTrailingSlashes (pyStripList x) := by
        simp [preprocessList, hs, h1]
      rw [hy]
      have hne : removeTrailingSlashes (pyStripList x) ≠ [] := scheme_ne_nil _ h1
      exact ⟨prefix_headNotSpace htp hne hhead, htl, Or.inr (Or.inl h1)⟩
    | false =>
      cases h2 : "www.".data.isPrefixOf (removeTrailingSlashes (pyStripList x)) with
      | true =>
        have hy : preprocessList x =
            "https://".data ++ removeTrailingSlashes (pyStripList x) := by
          simp [preprocessList, hs, h1, h2]
        rw [hy]
        have hne : removeTrailingSlashes (pyStripList x) ≠ [] := www_ne_nil _ h2
        exact ⟨headNotSpace_https _,
          by rw [lastNotSlash_append_right _ _ hne]; exact htl,
          Or.inr (Or.inl (scheme_append_https _))⟩
      | false =>
        cases h3 : (removeTrailingSlashes (pyStripList x)).any badChar with
        | false =>
          have hy : preprocessList x =
              "https://www.".data ++ removeTrailingSlashes (pyStripList x) := by
            simp [preprocessList, hs, h1, h2, h3]
          rw [hy]
          refine ⟨headNotSpace_https_www _, ?_,
            Or.inr (Or.inl (scheme_append_https_www _))⟩
          by_cases hne : removeTrailingSlashes (pyStripList x) = []
          · rw [hne, List.append_nil]; decide
          · rw [lastNotSlash_append_right _ _ hne]; exact htl
        | true =>
          have hy : preprocessList x = removeTrailingSlashes (pyStripList x) := by
            simp [preprocessList, hs, h1, h2, h3]
          rw [hy]
          have hne : removeTrailingSlashes (pyStripList x) ≠ [] := by
            rcases List.any_eq_true.mp h3 with ⟨c, hc, _⟩
            exact List.ne_nil_of_mem hc
          exact ⟨prefix_headNotSpace htp hne hhead, htl,
            Or.inr (Or.inr ⟨h1, h2, by rw [h3]; rfl⟩)⟩

theorem preprocessList_idem (x : List Char)
    (hlast : lastNotSpace (preprocessList x) = true) :
    preprocessList (preprocessList x) = preprocessList x := by
  obtain ⟨hhead, hslash, hbranch⟩ := preprocessList_props x
  rcases hbranch with hnil | hsch | ⟨hsch, hwww, hbad⟩
  · rw [hnil]; rfl
  · have hstrip := pyStripList_eq_self _ hhead hlast
    have hrts := rts_eq_self _ hslash
    have hne : preprocessList x ≠ [] := scheme_ne_nil _ hsch
    generalize hg : preprocessList x = y at hstrip hrts hne hsch ⊢
    conv_lhs => rw [preprocessList.eq_1]
    rw [hstrip, if_neg hne, hrts, if_pos hsch]
  · have hstrip := pyStripList_eq_self _ hhead hlast
    have hrts := rts_eq_self _ hslash
    have hne : preprocessList x ≠ [] := by
      intro h0
      rw [h0] at hbad
      simp at hbad
    generalize hg : preprocessList x = y at hstrip hrts hne hsch hwww hbad ⊢
    conv_lhs => rw [preprocessList.eq_1]
    rw [hstrip, if_neg hne, hrts, if_neg (by simp [hsch]), if_neg (by simp [hwww]),
      if_neg (by simp [hbad])]

/-! Claim C4. -/

/-- C4: preprocess_url implements exactly the normalization pipeline the
claim describes: trim surrounding whitespace, return empty on empty, strip
all trailing slashes, return scheme-prefixed input unchanged, prefix
https:// after www., prefix https://www. on bare hostnames, return
everything else unchanged. The embedded function is total, matching the
no-exception part of the claim. -/
theorem C4_normalize_matches_spec (url : String) :
    preprocess_url url = normalizeSpec url := by
  unfold preprocess_url normalizeSpec
  congr 1
  simp only [preprocessList, normalizeSpecList, removeTrailingSlashes_eq]

/-! Claim C7. -/

/-- C7 counterexample: on the input consisting of x, a space and a slash,
the slash stripping exposes a trailing space, the space makes the bare
hostname test fail, and the output keeps its trailing space; normalizing
that output strips the space and prefixes the scheme, so the two rounds
disagree and idempotence fails. -/
theorem C7_counterexample :
    preprocess_url "x /" = "x " ∧
    preprocess_url (preprocess_url "x /") = "https://www.x" ∧
    decide (preprocess_url (preprocess_url "x /") = preprocess_url "x /") = false :=
  ⟨rfl, rfl, rfl⟩

/-- C7 amended: preprocess_url is idempotent on every input whose
normalized output carries no trailing whitespace character; the
counterexample shows the restriction is needed exactly when slash
stripping exposes trailing whitespace. -/
theorem C7_normalize_idempotent_amended (url : String)
    (h : lastNotSpace (preprocess_url url).data = true) :
    preprocess_url (preprocess_url url) = preprocess_url url :=
  congrArg String.mk (preprocessList_idem url.data h)

/-- C7 witness: idempotence on the bare hostname example of the spec. -/
theorem C7_normalize_idempotent_amended_witness :
    lastNotSpace (preprocess_url "example.com").data = true ∧
    preprocess_url (preprocess_url "example.com") = preprocess_url "example.com" :=
  ⟨by decide, C7_normalize_idempotent_amended "example.com" (by decide)⟩

/-! Claim C10. -/

/-- C10 counterexample: the output for the input consisting of x, a space
and a slash ends with a whitespace character, refuting the no-trailing-
whitespace part of the claim. -/
theorem C10_counterexample :
    (preprocess_url "x /").data.getLast? = some ' ' ∧
    isPySpace ' ' = true ∧
    lastNotSpace (preprocess_url "x /").data = false :=
  ⟨rfl, rfl, rfl⟩

/-- C10 amended: every output of preprocess_url has no leading whitespace
and never ends with a slash; trailing whitespace, however, can survive
when stripping trailing slashes exposes it, as the counterexample
shows. -/
theorem C10_output_shape_amended (url : String) :
    headNotSpace (preprocess_url url).data = true ∧
    lastNotSlash (preprocess_url url).data = true :=
  ⟨(preprocessList_props url.data).1, (preprocessList_props url.data).2.1⟩

/-! Claim C5. -/

/-- C5: on a store listing with pairwise distinct timestamps, the history
is a permutation of the listed entries and is strictly descending on
lastModified, most recent first. -/
theorem C5_history_sorted_desc (entries : List S3Entry)
    (hdistinct : entries.Pairwise fun a b => a.lastModified ≠ b.lastModified) :
    (get_s3_analysis_history (.ok (some entries))).items.Perm entries ∧
    (get_s3_analysis_history (.ok (some entries))).items.Pairwise
      (fun a b => b.lastModified < a.lastModified) := by
  have hitems : (get_s3_analysis_history (.ok (some entries))).items =
      sortByLastModifiedDesc entries := rfl
  have hperm : (sortByLastModifiedDesc entries).Perm entries :=
    List.mergeSort_perm entries _
  have htrans : ∀ a b c : S3Entry,
      (decide (b.lastModified ≤ a.lastModified)) = true →
      (decide (c.lastModified ≤ b.lastModified)) = true →
      (decide (c.lastModified ≤ a.lastModified)) = true := by
    intro a b c hab hbc
    simp only [decide_eq_true_eq] at *
    omega
  have htotal : ∀ a b : S3Entry,
      ((decide (b.lastModified ≤ a.lastModified)) ||
        (decide (a.lastModified ≤ b.lastModified))) = true := by
    intro a b
    simp only [Bool.or_eq_true, decide_eq_true_eq]
    omega
  have hsorted := @List.sorted_mergeSort S3Entry
    (fun a b => decide (b.lastModified ≤ a.lastModified)) htrans htotal entries
  have hle : (sortByLastModifiedDesc entries).Pairwise
      (fun a b => b.lastModified ≤ a.lastModified) :=
    hsorted.imp fun hab => by simpa using hab
  have hne : (sortByLastModifiedDesc entries).Pairwise
      (fun a b => a.lastModified ≠ b.lastModified) :=
    (hperm.pairwise_iff fun hxy => hxy.symm).mpr hdistinct
  refine ⟨hitems ▸ hperm, hitems ▸ ?_⟩
  exact (List.pairwise_and_iff.mpr ⟨hle, hne⟩).imp fun hab =>
    Nat.lt_of_le_of_ne hab.1 fun heq => hab.2 heq.symm

/-- C5 witness: three unsorted entries with distinct stamps come back
sorted most recent first. -/
theorem C5_history_sorted_desc_witness :
    ([⟨"scraped-data/a.json", 3⟩, ⟨"scraped-data/b.json", 9⟩,
        ⟨"scraped-data/c.json", 5⟩] : List S3Entry).Pairwise
      (fun a b => a.lastModified ≠ b.lastModified) ∧
    ((get_s3_analysis_history (.ok (some [⟨"scraped-data/a.json", 3⟩,
        ⟨"scraped-data/b.json", 9⟩, ⟨"scraped-data/c.json", 5⟩]))).items.Perm
      [⟨"scraped-data/a.json", 3⟩, ⟨"scraped-data/b.json", 9⟩,
        ⟨"scraped-data/c.json", 5⟩] ∧
    (get_s3_analysis_history (.ok (some [⟨"scraped-data/a.json", 3⟩,
        ⟨"scraped-data/b.json", 9⟩, ⟨"scraped-data/c.json", 5⟩]))).items.Pairwise
      (fun a b => b.lastModified < a.lastModified)) :=
  ⟨by decide,
    C5_history_sorted_desc [⟨"scraped-data/a.json", 3⟩, ⟨"scraped-data/b.json", 9⟩,
      ⟨"scraped-data/c.json", 5⟩] (by decide)⟩

/-! Claim C6. -/

/-- C6: when the store listing raises, the history is the empty list and
the failure is reported to the caller through the non-fatal error message;
when the response has no Contents, the history is the empty list with no
report. Nothing is raised: the embedded function is total. -/
theorem C6_listing_error_returns_empty (errMsg : String) :
    (get_s3_analysis_history (.error errMsg)).items = [] ∧
    (get_s3_analysis_history (.error errMsg)).reported =
      some ("Failed to fetch analysis history: " ++ errMsg) ∧
    get_s3_analysis_history (.ok none) = { items := [], reported := none } :=
  ⟨rfl, rfl, rfl⟩

/-! Claim C8. -/

/-- C8 counterexample: with the environment variable present but set to
the empty string and a secret-store value present, the Python or-chain
takes the secret-store value, not the environment value, because the empty
string is falsy; the claim as stated predicts the environment value. -/
theorem C8_counterexample :
    resolveCredential (some "") "secret-store-key" = "secret-store-key" ∧
    decide (("secret-store-key" : String) = "") = false :=
  ⟨rfl, rfl⟩

/-- C8 amended: the environment value is used whenever it is present and
non-empty; the secret-store value is used when the environment value is
absent, and also when it is present but empty. -/
theorem C8_env_precedence_amended (v s : String) :
    (v ≠ "" → resolveCredential (some v) s = v) ∧
    resolveCredential none s = s ∧
    resolveCredential (some "") s = s := by
  refine ⟨?_, rfl, rfl⟩
  intro hv
  simp [resolveCredential, hv]

/-- C8 witness: a non-empty environment value wins over the secret store,
and the secret store is used when the environment is unset. -/
theorem C8_env_precedence_amended_witness :
    ("AKIAENVVALUE" ≠ "") ∧
    resolveCredential (some "AKIAENVVALUE") "secretvalue" = "AKIAENVVALUE" ∧
    resolveCredential none "secretvalue" = "secretvalue" :=
  ⟨by decide, (C8_env_precedence_amended "AKIAENVVALUE" "secretvalue").1 (by decide),
    (C8_env_precedence_amended "AKIAENVVALUE" "secretvalue").2.1⟩
